import Mathlib

/-
Shallow embedding of the go-rust-interop repository: the `azurecosmos` Go
wrapper package around the native Rust Cosmos client (handle lifecycle,
error translation, string marshaling, point reads) and the `cmd` benchmark
harness (worker loop, counters, results aggregation).

Foreign (cgo) calls are modelled by an explicit environment `ForeignEnv`
(a test double for the native library) and every wrapper operation returns,
besides its Go-style result pair, the list of foreign-layer events it
performed, so that claims about destructor counts, marshaling balance and
"no foreign call after close" are statable.
-/

namespace Azurecosmos

/-- A C pointer in the embedding: `none` is the NULL pointer. -/
abbrev CPtr := Option Nat

/-- Mirrors `C.struct_cosmos_error`: a status code and a message pointer
that may be NULL (`none`). -/
structure cosmos_error where
  code : Int
  message : Option String
deriving Repr, DecidableEq

/-- Modelled from the spec: the C header `azurecosmos.h` that defines
`COSMOS_ERROR_CODE_SUCCESS` is not among the sources (it is generated by
the native build); the spec fixes 0 as the reserved success sentinel. -/
def COSMOS_ERROR_CODE_SUCCESS : Int := 0

/-- Mirrors the Go `CosmosError` struct (code + message), the typed error
the wrapper produces for non-success foreign status codes. -/
structure CosmosError where
  Code : Int
  Message : String
deriving Repr, DecidableEq

/-- A Go `error` value produced by this package: either a `*CosmosError`
or a `fmt.Errorf` string error. A Go `error` result is nilable, so
operations below return `Option GoError` (`none` = nil). -/
inductive GoError where
  | cosmos (e : CosmosError)
  | errorf (msg : String)
deriving Repr, DecidableEq

/-- Mirrors `newCosmosError`: success sentinel maps to nil, otherwise a
`CosmosError` with the code and the message text (empty string when the
message pointer is NULL). -/
def newCosmosError (cerr : cosmos_error) : Option GoError :=
  if cerr.code = COSMOS_ERROR_CODE_SUCCESS then
    none
  else
    let message :=
      match cerr.message with
      | none => ""
      | some m => m
    some (GoError.cosmos { Code := cerr.code, Message := message })

/-- The distinct `C.CString` call sites of the wrapper; tagging marshaling
events by call site keeps allocations with equal text distinguishable. -/
inductive CStrRole where
  | endpoint
  | key
  | databaseID
  | containerID
  | itemID
  | partitionKey
deriving Repr, DecidableEq

/-- One observable event at the foreign boundary: a native-library entry
point being invoked, a `C.CString` copy being allocated, or a copy being
released with `C.free`. -/
inductive ForeignCall where
  | cosmos_client_create_with_key (endpoint key : String)
  | cosmos_client_database_client (client : Nat) (databaseID : String)
  | cosmos_database_container_client (database : Nat) (containerID : String)
  | cosmos_container_read_item (container : Nat) (partitionKey itemID : String)
  | cosmos_client_free (h : Nat)
  | cosmos_database_free (h : Nat)
  | cosmos_container_free (h : Nat)
  | cosmos_string_free (buf : String)
  | cstringAlloc (role : CStrRole) (s : String)
  | cstringFree (role : CStrRole) (s : String)
deriving Repr, DecidableEq

/-- The native library as a test double: for each entry point, the returned
status code, the value written through the out-parameter (NULL / zero value
when the callee writes nothing), and the post-call contents of the
`cosmos_error` out-struct. -/
structure ForeignEnv where
  clientCreateWithKey : String → String → Int × CPtr × cosmos_error
  clientDatabaseClient : Nat → String → Int × CPtr × cosmos_error
  databaseContainerClient : Nat → String → Int × CPtr × cosmos_error
  containerReadItem : Nat → String → String → Int × Option String × cosmos_error

/-- Mirrors the Go `CosmosClient` struct: the native pointer field, plus
whether the runtime finalizer set by the constructor is still armed
(`runtime.SetFinalizer(c, ...)` / `runtime.SetFinalizer(c, nil)`). -/
structure CosmosClient where
  client : CPtr
  finalizerSet : Bool
deriving Repr, DecidableEq

/-- Mirrors the Go `DatabaseClient` struct. -/
structure DatabaseClient where
  database : CPtr
  finalizerSet : Bool
deriving Repr, DecidableEq

/-- Mirrors the Go `ContainerClient` struct. -/
structure ContainerClient where
  container : CPtr
  finalizerSet : Bool
deriving Repr, DecidableEq

/-- Mirrors `(*CosmosClient).finalize`: free the native client iff the
pointer is non-nil, then set it to nil. -/
def CosmosClient.finalize (c : CosmosClient) : CosmosClient × List ForeignCall :=
  match c.client with
  | some h => ({ c with client := none }, [ForeignCall.cosmos_client_free h])
  | none => (c, [])

/-- Mirrors `(*CosmosClient).Close`: disarm the finalizer, then finalize. -/
def CosmosClient.Close (c : CosmosClient) : CosmosClient × List ForeignCall :=
  CosmosClient.finalize { c with finalizerSet := false }

/-- The garbage collector reclaiming the wrapper object: runs `finalize`
only if the finalizer is still armed, and a finalizer runs at most once. -/
def CosmosClient.runFinalizer (c : CosmosClient) : CosmosClient × List ForeignCall :=
  if c.finalizerSet then
    let r := CosmosClient.finalize c
    ({ r.1 with finalizerSet := false }, r.2)
  else (c, [])

/-- Mirrors `(*DatabaseClient).finalize`. -/
def DatabaseClient.finalize (d : DatabaseClient) : DatabaseClient × List ForeignCall :=
  match d.database with
  | some h => ({ d with database := none }, [ForeignCall.cosmos_database_free h])
  | none => (d, [])

/-- Mirrors `(*DatabaseClient).Close`. -/
def DatabaseClient.Close (d : DatabaseClient) : DatabaseClient × List ForeignCall :=
  DatabaseClient.finalize { d with finalizerSet := false }

/-- Garbage-collector reclamation of a `DatabaseClient` wrapper. -/
def DatabaseClient.runFinalizer (d : DatabaseClient) : DatabaseClient × List ForeignCall :=
  if d.finalizerSet then
    let r := DatabaseClient.finalize d
    ({ r.1 with finalizerSet := false }, r.2)
  else (d, [])

/-- Mirrors `(*ContainerClient).finalize`. -/
def ContainerClient.finalize (c : ContainerClient) : ContainerClient × List ForeignCall :=
  match c.container with
  | some h => ({ c with container := none }, [ForeignCall.cosmos_container_free h])
  | none => (c, [])

/-- Mirrors `(*ContainerClient).Close`. -/
def ContainerClient.Close (c : ContainerClient) : ContainerClient × List ForeignCall :=
  ContainerClient.finalize { c with finalizerSet := false }

/-- Garbage-collector reclamation of a `ContainerClient` wrapper. -/
def ContainerClient.runFinalizer (c : ContainerClient) : ContainerClient × List ForeignCall :=
  if c.finalizerSet then
    let r := ContainerClient.finalize c
    ({ r.1 with finalizerSet := false }, r.2)
  else (c, [])

/-- A lifecycle action the owner or the runtime may perform on a wrapper:
an explicit `Close` call or a garbage-collection pass that would run the
wrapper's finalizer. -/
inductive LifecycleEvent where
  | close
  | gcReclaim
deriving Repr, DecidableEq

/-- Runs a sequence of lifecycle events on a `CosmosClient`, accumulating
the foreign calls they perform. -/
def runClientEvents : List LifecycleEvent → CosmosClient → CosmosClient × List ForeignCall
  | [], c => (c, [])
  | e :: rest, c =>
    let step :=
      match e with
      | LifecycleEvent.close => CosmosClient.Close c
      | LifecycleEvent.gcReclaim => CosmosClient.runFinalizer c
    let r := runClientEvents rest step.1
    (r.1, step.2 ++ r.2)

/-- Runs a sequence of lifecycle events on a `DatabaseClient`. -/
def runDatabaseEvents : List LifecycleEvent → DatabaseClient → DatabaseClient × List ForeignCall
  | [], d => (d, [])
  | e :: rest, d =>
    let step :=
      match e with
      | LifecycleEvent.close => DatabaseClient.Close d
      | LifecycleEvent.gcReclaim => DatabaseClient.runFinalizer d
    let r := runDatabaseEvents rest step.1
    (r.1, step.2 ++ r.2)

/-- Runs a sequence of lifecycle events on a `ContainerClient`. -/
def runContainerEvents : List LifecycleEvent → ContainerClient → ContainerClient × List ForeignCall
  | [], c => (c, [])
  | e :: rest, c =>
    let step :=
      match e with
      | LifecycleEvent.close => ContainerClient.Close c
      | LifecycleEvent.gcReclaim => ContainerClient.runFinalizer c
    let r := runContainerEvents rest step.1
    (r.1, step.2 ++ r.2)

/-- Number of `cosmos_client_free` invocations in a trace. -/
def clientFreeCount (t : List ForeignCall) : Nat :=
  t.countP fun e =>
    match e with
    | ForeignCall.cosmos_client_free _ => true
    | _ => false

/-- Number of `cosmos_database_free` invocations in a trace. -/
def databaseFreeCount (t : List ForeignCall) : Nat :=
  t.countP fun e =>
    match e with
    | ForeignCall.cosmos_database_free _ => true
    | _ => false

/-- Number of `cosmos_container_free` invocations in a trace. -/
def containerFreeCount (t : List ForeignCall) : Nat :=
  t.countP fun e =>
    match e with
    | ForeignCall.cosmos_container_free _ => true
    | _ => false

/-- The `C.CString` allocations of a trace, in order, as (call site, text). -/
def cstrAllocs (t : List ForeignCall) : List (CStrRole × String) :=
  t.filterMap fun e =>
    match e with
    | ForeignCall.cstringAlloc r s => some (r, s)
    | _ => none

/-- The `C.free` releases of `C.CString` copies in a trace, in order. -/
def cstrFrees (t : List ForeignCall) : List (CStrRole × String) :=
  t.filterMap fun e =>
    match e with
    | ForeignCall.cstringFree r s => some (r, s)
    | _ => none

/-- Mirrors `NewCosmosClientWithKey`: marshal endpoint and key, call the
native constructor, free the copies (deferred, LIFO) on every exit path;
on a non-success code return the translated error, otherwise wrap whatever
handle the callee wrote (NULL included) and arm the finalizer. -/
def NewCosmosClientWithKey (env : ForeignEnv) (endpoint key : String) :
    (Option CosmosClient × Option GoError) × List ForeignCall :=
  let pre := [ForeignCall.cstringAlloc CStrRole.endpoint endpoint,
              ForeignCall.cstringAlloc CStrRole.key key]
  let (code, client, cerr) := env.clientCreateWithKey endpoint key
  let callEv := [ForeignCall.cosmos_client_create_with_key endpoint key]
  let deferred := [ForeignCall.cstringFree CStrRole.key key,
                   ForeignCall.cstringFree CStrRole.endpoint endpoint]
  if code ≠ COSMOS_ERROR_CODE_SUCCESS then
    ((none, newCosmosError cerr), pre ++ callEv ++ deferred)
  else
    ((some { client := client, finalizerSet := true }, none), pre ++ callEv ++ deferred)

/-- Mirrors `(*CosmosClient).DatabaseClient`: fail fast when closed (no
foreign call), otherwise marshal the database id, call the native layer,
free the copy on every exit path. -/
def CosmosClient.DatabaseClient (env : ForeignEnv) (c : CosmosClient) (databaseID : String) :
    (Option DatabaseClient × Option GoError) × List ForeignCall :=
  match c.client with
  | none => ((none, some (GoError.errorf "client is closed")), [])
  | some h =>
    let pre := [ForeignCall.cstringAlloc CStrRole.databaseID databaseID]
    let (code, database, cerr) := env.clientDatabaseClient h databaseID
    let callEv := [ForeignCall.cosmos_client_database_client h databaseID]
    let deferred := [ForeignCall.cstringFree CStrRole.databaseID databaseID]
    if code ≠ COSMOS_ERROR_CODE_SUCCESS then
      ((none, newCosmosError cerr), pre ++ callEv ++ deferred)
    else
      ((some { database := database, finalizerSet := true }, none), pre ++ callEv ++ deferred)

/-- Mirrors `(*DatabaseClient).ContainerClient`. -/
def DatabaseClient.ContainerClient (env : ForeignEnv) (d : DatabaseClient) (containerID : String) :
    (Option ContainerClient × Option GoError) × List ForeignCall :=
  match d.database with
  | none => ((none, some (GoError.errorf "database client is closed")), [])
  | some h =>
    let pre := [ForeignCall.cstringAlloc CStrRole.containerID containerID]
    let (code, container, cerr) := env.databaseContainerClient h containerID
    let callEv := [ForeignCall.cosmos_database_container_client h containerID]
    let deferred := [ForeignCall.cstringFree CStrRole.containerID containerID]
    if code ≠ COSMOS_ERROR_CODE_SUCCESS then
      ((none, newCosmosError cerr), pre ++ callEv ++ deferred)
    else
      ((some { container := container, finalizerSet := true }, none), pre ++ callEv ++ deferred)

/-- Mirrors `(*ContainerClient).ReadItem`: fail fast when closed; marshal
item id then partition key; call the native read; on non-success code
return the translated error; on success with a NULL payload return the
null-response error; otherwise copy the JSON into a managed string and
release the foreign buffer with `cosmos_string_free`. The two `C.free`
releases of the input copies run deferred (LIFO) on every exit path. -/
def ContainerClient.ReadItem (env : ForeignEnv) (c : ContainerClient) (itemID partitionKey : String) :
    (String × Option GoError) × List ForeignCall :=
  match c.container with
  | none => (("", some (GoError.errorf "container client is closed")), [])
  | some h =>
    let pre := [ForeignCall.cstringAlloc CStrRole.itemID itemID,
                ForeignCall.cstringAlloc CStrRole.partitionKey partitionKey]
    let (code, outJson, cerr) := env.containerReadItem h partitionKey itemID
    let callEv := [ForeignCall.cosmos_container_read_item h partitionKey itemID]
    let deferred := [ForeignCall.cstringFree CStrRole.partitionKey partitionKey,
                     ForeignCall.cstringFree CStrRole.itemID itemID]
    if code ≠ COSMOS_ERROR_CODE_SUCCESS then
      (("", newCosmosError cerr), pre ++ callEv ++ deferred)
    else
      match outJson with
      | none =>
        (("", some (GoError.errorf "received null JSON response")), pre ++ callEv ++ deferred)
      | some json =>
        ((json, none), pre ++ callEv ++ [ForeignCall.cosmos_string_free json] ++ deferred)

end Azurecosmos

namespace Cmd

open Azurecosmos

/-- Mirrors the `RandomDocsItem` struct of the data-loading tool
(`createDb.go`). -/
structure RandomDocsItem where
  ID : String
  PartitionKey : String
  Data : String
  RandomNumber : Int
deriving Repr, DecidableEq

/-- Mirrors `createRandomDocsItem`: the deterministic id/partition-key
mapping of the data-loading tool. The random payload (`generateRandomString
1024`) and the random number are abstracted as parameters, since only the
deterministic fields matter to the claims. -/
def createRandomDocsItem (index partitionCount : Nat) (data : String) (randomNumber : Int) :
    RandomDocsItem :=
  { ID := "item" ++ toString index,
    PartitionKey := "partition" ++ toString (index % partitionCount),
    Data := data,
    RandomNumber := randomNumber }

/-- Mirrors the Go `BenchmarkResults` struct; the two float64 fields are
modelled as exact rationals (`ElapsedTime` is a `time.Duration`, i.e. a
nanosecond count). -/
structure BenchmarkResults where
  TotalOps : Int
  ElapsedTimeNs : Int
  OpsPerSecond : ℚ
  LatencyMs : ℚ
deriving Repr, DecidableEq

/-- The aggregation tail of `executeBenchmark` (after `wg.Wait()`): fail
with the no-operations error when the shared success counter is zero,
otherwise compute ops/second from the elapsed wall time
(`Duration.Seconds` = nanoseconds / 1e9) and the mean latency in
milliseconds. Go-style nilable result pair. -/
def aggregateBenchmark (finalOps finalLatency actualElapsedNs : Int) :
    Option BenchmarkResults × Option GoError :=
  if finalOps = 0 then
    (none, some (GoError.errorf "no operations completed"))
  else
    (some { TotalOps := finalOps,
            ElapsedTimeNs := actualElapsedNs,
            OpsPerSecond := (finalOps : ℚ) / ((actualElapsedNs : ℚ) / 1000000000),
            LatencyMs := (finalLatency : ℚ) / (finalOps : ℚ) / 1000000 }, none)

/-- The environment of one iteration of a worker's loop: the state of the
two cancellation signals as sampled by the `select` at the top of the
iteration, the index drawn from the worker's private random source
(`localRand.Intn itemCount`), the error component of the `ReadItem` result
for this attempt (the test double's behavior), and the measured latency of
the attempt in nanoseconds. -/
structure IterInput where
  ctxDone : Bool
  stopClosed : Bool
  itemIndex : Nat
  readErr : Option GoError
  latencyNs : Int
deriving Repr, DecidableEq

/-- What a worker observably does in one iteration: issue one read, or log
one per-operation error. -/
inductive WorkerEvent where
  | read (itemID partitionKey : String)
  | log (workerID : Nat) (itemID : String) (err : GoError)
deriving Repr, DecidableEq

/-- The two shared atomic counters (`totalOps`, `totalLatency`). -/
structure Counters where
  totalOps : Int
  totalLatency : Int
deriving Repr, DecidableEq

/-- Mirrors the loop of `workerBenchmark`: each iteration first polls both
cancellation signals (`select` with `default`) and returns if either is
ready; otherwise derives `itemID`/`partitionKey` from the drawn index,
issues the read, and on error logs and continues without touching the
counters, while on success adds 1 and the elapsed nanoseconds to them.
The schedule list supplies each iteration's environment; an exhausted
schedule ends the run (a finite observation window of the unbounded Go
loop). -/
def workerBenchmark (partitionCount workerID : Nat) :
    List IterInput → Counters → Counters × List WorkerEvent
  | [], cs => (cs, [])
  | it :: rest, cs =>
    if it.ctxDone || it.stopClosed then
      (cs, [])
    else
      let itemID := "item" ++ toString it.itemIndex
      let partitionKey := "partition" ++ toString (it.itemIndex % partitionCount)
      match it.readErr with
      | some e =>
        let r := workerBenchmark partitionCount workerID rest cs
        (r.1, WorkerEvent.read itemID partitionKey :: WorkerEvent.log workerID itemID e :: r.2)
      | none =>
        let r := workerBenchmark partitionCount workerID rest
          { totalOps := cs.totalOps + 1, totalLatency := cs.totalLatency + it.latencyNs }
        (r.1, WorkerEvent.read itemID partitionKey :: r.2)

/-- Mirrors the structure of `executeBenchmark`: all workers run to
completion (`wg.Wait()`), the shared counters hold the sum of the
workers' atomic contributions (a sum is insensitive to the interleaving
of atomic adds), and only then is the aggregation performed. Worker `i`
runs on `schedules[i]`. -/
def executeBenchmark (partitionCount : Nat) (schedules : List (List IterInput))
    (actualElapsedNs : Int) : Option BenchmarkResults × Option GoError :=
  let runs := schedules.enum.map fun p => workerBenchmark partitionCount p.1 p.2 ⟨0, 0⟩
  let finalOps := (runs.map fun r => r.1.totalOps).sum
  let finalLatency := (runs.map fun r => r.1.totalLatency).sum
  aggregateBenchmark finalOps finalLatency actualElapsedNs

end Cmd

namespace Azurecosmos

/-- Test double: every entry point reports success, constructors write a
non-NULL handle, but the read writes a NULL payload pointer despite the
success status (the inconsistent foreign contract the wrapper guards
against). -/
def nullPayloadEnv : ForeignEnv :=
  { clientCreateWithKey := fun _ _ => (0, some 1, ⟨0, none⟩),
    clientDatabaseClient := fun _ _ => (0, some 2, ⟨0, none⟩),
    databaseContainerClient := fun _ _ => (0, some 3, ⟨0, none⟩),
    containerReadItem := fun _ _ _ => (0, none, ⟨0, none⟩) }

/-- Test double: every entry point reports success but writes a NULL
handle through its out-parameter; the read returns a fixed payload. -/
def nullHandleEnv : ForeignEnv :=
  { clientCreateWithKey := fun _ _ => (0, none, ⟨0, none⟩),
    clientDatabaseClient := fun _ _ => (0, none, ⟨0, none⟩),
    databaseContainerClient := fun _ _ => (0, none, ⟨0, none⟩),
    containerReadItem := fun _ _ _ => (0, some "{}", ⟨0, none⟩) }

/-- Test double: a fully well-behaved native library. -/
def okEnv : ForeignEnv :=
  { clientCreateWithKey := fun _ _ => (0, some 1, ⟨0, none⟩),
    clientDatabaseClient := fun _ _ => (0, some 2, ⟨0, none⟩),
    databaseContainerClient := fun _ _ => (0, some 3, ⟨0, none⟩),
    containerReadItem := fun _ _ _ => (0, some "{}", ⟨0, none⟩) }

end Azurecosmos

open Azurecosmos Cmd

/-- C4: the error translator returns no error whenever the code equals the
success sentinel 0, regardless of the message; for every non-zero code it
returns a `CosmosError` carrying exactly that code and the message text,
with the empty string substituted for a null message pointer; and it never
constructs an error whose code is the success sentinel. -/
theorem C4_error_translator (cerr : cosmos_error) :
    (cerr.code = COSMOS_ERROR_CODE_SUCCESS → newCosmosError cerr = none) ∧
    (cerr.code ≠ COSMOS_ERROR_CODE_SUCCESS →
      newCosmosError cerr =
        some (GoError.cosmos { Code := cerr.code, Message := cerr.message.getD "" })) ∧
    (∀ e, newCosmosError cerr = some (GoError.cosmos e) →
      e.Code ≠ COSMOS_ERROR_CODE_SUCCESS) := by
  rcases cerr with ⟨code, msg⟩
  by_cases h : code = COSMOS_ERROR_CODE_SUCCESS
  · refine ⟨fun _ => by simp [newCosmosError, h], fun hne => absurd h hne, ?_⟩
    intro e he
    simp [newCosmosError, h] at he
  · refine ⟨fun heq => absurd heq h, fun _ => ?_, ?_⟩
    · cases msg <;> simp [newCosmosError, h, Option.getD]
    · intro e he
      cases msg <;> simp [newCosmosError, h] at he <;>
        cases he.symm <;> simpa using h

/-- Witness for C4 at concrete inputs: code 0 with a message yields no
error; code 404 with a null message yields the error with empty text. -/
theorem C4_error_translator_witness :
    newCosmosError ⟨0, some "ignored"⟩ = none ∧
    newCosmosError ⟨404, none⟩ = some (GoError.cosmos { Code := 404, Message := "" }) :=
  ⟨(C4_error_translator ⟨0, some "ignored"⟩).1 rfl,
   (C4_error_translator ⟨404, none⟩).2.1 (by decide)⟩

/-- C5: in an uncancelled iteration the load-generator worker issues a read
whose item id and partition key are exactly those the data-loading tool
(`createRandomDocsItem`) derives for the drawn index, i.e. the two mappings
coincide; and at the concrete instance, index 12345 mod 10000 = 2345 with
partition count 10 yields item id "item2345" and partition key
"partition5". -/
theorem C5_key_mapping (pc wid : Nat) (it : IterInput) (rest : List IterInput)
    (cs : Counters) (d : String) (rn : Int)
    (hc : it.ctxDone = false) (hs : it.stopClosed = false) :
    (workerBenchmark pc wid (it :: rest) cs).2.head? =
      some (WorkerEvent.read (createRandomDocsItem it.itemIndex pc d rn).ID
                             (createRandomDocsItem it.itemIndex pc d rn).PartitionKey) ∧
    (createRandomDocsItem (12345 % 10000) 10 d rn).ID = "item2345" ∧
    (createRandomDocsItem (12345 % 10000) 10 d rn).PartitionKey = "partition5" := by
  refine ⟨?_, rfl, rfl⟩
  cases hre : it.readErr <;>
    simp [workerBenchmark, hc, hs, hre, createRandomDocsItem]

/-- Witness for C5 at a concrete uncancelled iteration with index 2345. -/
theorem C5_key_mapping_witness :
    (workerBenchmark 10 0 [{ ctxDone := false, stopClosed := false, itemIndex := 2345,
                             readErr := none, latencyNs := 5 }] ⟨0, 0⟩).2.head? =
      some (WorkerEvent.read (createRandomDocsItem 2345 10 "d" 1).ID
                             (createRandomDocsItem 2345 10 "d" 1).PartitionKey) ∧
    (createRandomDocsItem (12345 % 10000) 10 "d" 1).ID = "item2345" ∧
    (createRandomDocsItem (12345 % 10000) 10 "d" 1).PartitionKey = "partition5" :=
  C5_key_mapping 10 0 _ [] ⟨0, 0⟩ "d" 1 rfl rfl

/-- C6: the results aggregation fails with the no-operations error when the
success counter is zero (producing no summary); otherwise it produces, with
no error, ops/second = totalOps / elapsedSeconds and mean latency
= cumulativeLatencyNs / totalOps / 1e6; and totalOps = 100 with
cumulativeLatencyNs = 100000000 yields a mean latency of exactly 1.0 ms. -/
theorem C6_results_aggregation (ops lat ns : Int) (hops : ops ≠ 0) :
    aggregateBenchmark 0 lat ns = (none, some (GoError.errorf "no operations completed")) ∧
    aggregateBenchmark ops lat ns =
      (some { TotalOps := ops, ElapsedTimeNs := ns,
              OpsPerSecond := (ops : ℚ) / ((ns : ℚ) / 1000000000),
              LatencyMs := (lat : ℚ) / (ops : ℚ) / 1000000 }, none) ∧
    (aggregateBenchmark 100 100000000 ns).1.map BenchmarkResults.LatencyMs = some 1 := by
  refine ⟨by simp [aggregateBenchmark], by simp [aggregateBenchmark, hops], ?_⟩
  norm_num [aggregateBenchmark]

/-- Witness for C6 with 100 operations, 100000000 ns of cumulative
latency, and 2 seconds of elapsed time. -/
theorem C6_results_aggregation_witness :
    aggregateBenchmark 0 100000000 2000000000 =
      (none, some (GoError.errorf "no operations completed")) ∧
    aggregateBenchmark 100 100000000 2000000000 =
      (some { TotalOps := 100, ElapsedTimeNs := 2000000000,
              OpsPerSecond := (100 : ℚ) / ((2000000000 : ℚ) / 1000000000),
              LatencyMs := (100000000 : ℚ) / (100 : ℚ) / 1000000 }, none) ∧
    (aggregateBenchmark 100 100000000 2000000000).1.map BenchmarkResults.LatencyMs = some 1 :=
  C6_results_aggregation 100 100000000 2000000000 (by decide)

/-- C2: on a closed wrapper (nil internal pointer), each domain operation,
opening a database, opening a container, reading an item, returns the
closed-handle error immediately, with an empty foreign-call trace. -/
theorem C2_post_close_safety (env : ForeignEnv) (b1 b2 b3 : Bool)
    (dbID contID itemID pk : String) :
    CosmosClient.DatabaseClient env { client := none, finalizerSet := b1 } dbID =
      ((none, some (GoError.errorf "client is closed")), []) ∧
    DatabaseClient.ContainerClient env { database := none, finalizerSet := b2 } contID =
      ((none, some (GoError.errorf "database client is closed")), []) ∧
    ContainerClient.ReadItem env { container := none, finalizerSet := b3 } itemID pk =
      (("", some (GoError.errorf "container client is closed")), []) :=
  ⟨rfl, rfl, rfl⟩

/-- C3: when the foreign read reports the success status but writes a NULL
payload pointer, `ReadItem` on an open container returns the null-response
error and the empty string, after the one read call and the balanced
marshaling of its two input copies. -/
theorem C3_null_response (env : ForeignEnv) (h : Nat) (b : Bool) (itemID pk : String)
    (cerr : cosmos_error)
    (hread : env.containerReadItem h pk itemID = (COSMOS_ERROR_CODE_SUCCESS, none, cerr)) :
    ContainerClient.ReadItem env { container := some h, finalizerSet := b } itemID pk =
      (("", some (GoError.errorf "received null JSON response")),
       [ForeignCall.cstringAlloc CStrRole.itemID itemID,
        ForeignCall.cstringAlloc CStrRole.partitionKey pk,
        ForeignCall.cosmos_container_read_item h pk itemID,
        ForeignCall.cstringFree CStrRole.partitionKey pk,
        ForeignCall.cstringFree CStrRole.itemID itemID]) := by
  simp [ContainerClient.ReadItem, hread, COSMOS_ERROR_CODE_SUCCESS]

/-- Witness for C3 against the null-payload test double. -/
theorem C3_null_response_witness :
    ContainerClient.ReadItem nullPayloadEnv { container := some 3, finalizerSet := true }
        "item0" "partition0" =
      (("", some (GoError.errorf "received null JSON response")),
       [ForeignCall.cstringAlloc CStrRole.itemID "item0",
        ForeignCall.cstringAlloc CStrRole.partitionKey "partition0",
        ForeignCall.cosmos_container_read_item 3 "partition0" "item0",
        ForeignCall.cstringFree CStrRole.partitionKey "partition0",
        ForeignCall.cstringFree CStrRole.itemID "item0"]) :=
  C3_null_response nullPayloadEnv 3 true "item0" "partition0" ⟨0, none⟩ rfl

/-- C10: when any of the three foreign constructors (create client, open
database, open container) reports success but writes a NULL handle into
the out-parameter, the constructor still returns a wrapper with no error;
each such wrapper behaves as already closed: every domain operation on it
returns the closed-handle error with no foreign call, and `Close` never
invokes the foreign destructor -- the constructors, unlike `ReadItem`, do
not flag a NULL out-handle on success with a distinct error. -/
theorem C10_null_handle_constructor (env : ForeignEnv) (hcl hdb : Nat)
    (endpoint key dbID contID itemID pk : String) (cerr1 cerr2 cerr3 : cosmos_error)
    (h1 : env.clientCreateWithKey endpoint key = (COSMOS_ERROR_CODE_SUCCESS, none, cerr1))
    (h2 : env.clientDatabaseClient hcl dbID = (COSMOS_ERROR_CODE_SUCCESS, none, cerr2))
    (h3 : env.databaseContainerClient hdb contID = (COSMOS_ERROR_CODE_SUCCESS, none, cerr3)) :
    NewCosmosClientWithKey env endpoint key =
      ((some { client := none, finalizerSet := true }, none),
       [ForeignCall.cstringAlloc CStrRole.endpoint endpoint,
        ForeignCall.cstringAlloc CStrRole.key key,
        ForeignCall.cosmos_client_create_with_key endpoint key,
        ForeignCall.cstringFree CStrRole.key key,
        ForeignCall.cstringFree CStrRole.endpoint endpoint]) ∧
    CosmosClient.DatabaseClient env { client := some hcl, finalizerSet := true } dbID =
      ((some { database := none, finalizerSet := true }, none),
       [ForeignCall.cstringAlloc CStrRole.databaseID dbID,
        ForeignCall.cosmos_client_database_client hcl dbID,
        ForeignCall.cstringFree CStrRole.databaseID dbID]) ∧
    DatabaseClient.ContainerClient env { database := some hdb, finalizerSet := true } contID =
      ((some { container := none, finalizerSet := true }, none),
       [ForeignCall.cstringAlloc CStrRole.containerID contID,
        ForeignCall.cosmos_database_container_client hdb contID,
        ForeignCall.cstringFree CStrRole.containerID contID]) ∧
    CosmosClient.DatabaseClient env { client := none, finalizerSet := true } dbID =
      ((none, some (GoError.errorf "client is closed")), []) ∧
    DatabaseClient.ContainerClient env { database := none, finalizerSet := true } contID =
      ((none, some (GoError.errorf "database client is closed")), []) ∧
    ContainerClient.ReadItem env { container := none, finalizerSet := true } itemID pk =
      (("", some (GoError.errorf "container client is closed")), []) ∧
    CosmosClient.Close { client := none, finalizerSet := true } =
      ({ client := none, finalizerSet := false }, []) ∧
    DatabaseClient.Close { database := none, finalizerSet := true } =
      ({ database := none, finalizerSet := false }, []) ∧
    ContainerClient.Close { container := none, finalizerSet := true } =
      ({ container := none, finalizerSet := false }, []) := by
  refine ⟨?_, ?_, ?_, rfl, rfl, rfl, rfl, rfl, rfl⟩
  · simp [NewCosmosClientWithKey, h1, COSMOS_ERROR_CODE_SUCCESS]
  · simp [CosmosClient.DatabaseClient, h2, COSMOS_ERROR_CODE_SUCCESS]
  · simp [DatabaseClient.ContainerClient, h3, COSMOS_ERROR_CODE_SUCCESS]

/-- Witness for C10 against the null-handle test double: all three
constructors return a nil-pointer wrapper with nil error, and those
wrappers fail closed with destructor-free closes. -/
theorem C10_null_handle_constructor_witness :
    NewCosmosClientWithKey nullHandleEnv "https://localhost:8080" "key" =
      ((some { client := none, finalizerSet := true }, none),
       [ForeignCall.cstringAlloc CStrRole.endpoint "https://localhost:8080",
        ForeignCall.cstringAlloc CStrRole.key "key",
        ForeignCall.cosmos_client_create_with_key "https://localhost:8080" "key",
        ForeignCall.cstringFree CStrRole.key "key",
        ForeignCall.cstringFree CStrRole.endpoint "https://localhost:8080"]) ∧
    CosmosClient.DatabaseClient nullHandleEnv { client := some 1, finalizerSet := true }
        "sdk-bench-db" =
      ((some { database := none, finalizerSet := true }, none),
       [ForeignCall.cstringAlloc CStrRole.databaseID "sdk-bench-db",
        ForeignCall.cosmos_client_database_client 1 "sdk-bench-db",
        ForeignCall.cstringFree CStrRole.databaseID "sdk-bench-db"]) ∧
    DatabaseClient.ContainerClient nullHandleEnv { database := some 2, finalizerSet := true }
        "RandomDocs" =
      ((some { container := none, finalizerSet := true }, none),
       [ForeignCall.cstringAlloc CStrRole.containerID "RandomDocs",
        ForeignCall.cosmos_database_container_client 2 "RandomDocs",
        ForeignCall.cstringFree CStrRole.containerID "RandomDocs"]) ∧
    CosmosClient.DatabaseClient nullHandleEnv { client := none, finalizerSet := true }
        "sdk-bench-db" =
      ((none, some (GoError.errorf "client is closed")), []) ∧
    DatabaseClient.ContainerClient nullHandleEnv { database := none, finalizerSet := true }
        "RandomDocs" =
      ((none, some (GoError.errorf "database client is closed")), []) ∧
    ContainerClient.ReadItem nullHandleEnv { container := none, finalizerSet := true }
        "item0" "partition0" =
      (("", some (GoError.errorf "container client is closed")), []) ∧
    CosmosClient.Close { client := none, finalizerSet := true } =
      ({ client := none, finalizerSet := false }, []) ∧
    DatabaseClient.Close { database := none, finalizerSet := true } =
      ({ database := none, finalizerSet := false }, []) ∧
    ContainerClient.Close { container := none, finalizerSet := true } =
      ({ container := none, finalizerSet := false }, []) :=
  C10_null_handle_constructor nullHandleEnv 1 2 "https://localhost:8080" "key"
    "sdk-bench-db" "RandomDocs" "item0" "partition0" ⟨0, none⟩ ⟨0, none⟩ ⟨0, none⟩
    rfl rfl rfl

/-- Helper: the worker's behavior is fully determined by the maximal prefix
of the schedule on which neither cancellation signal has fired. -/
theorem workerBenchmark_cancel_prefix (pc wid : Nat) :
    ∀ (sched : List IterInput) (cs : Counters),
      workerBenchmark pc wid sched cs =
        workerBenchmark pc wid (sched.takeWhile fun i => !i.ctxDone && !i.stopClosed) cs := by
  intro sched
  induction sched with
  | nil => intro cs; rfl
  | cons it rest ih =>
    intro cs
    cases hcd : it.ctxDone <;> cases hsc : it.stopClosed
    · cases hre : it.readErr <;>
        simp [workerBenchmark, hcd, hsc, hre, List.takeWhile_cons, ← ih]
    all_goals simp [workerBenchmark, hcd, hsc, List.takeWhile_cons]

/-- C7: in an uncancelled iteration, a failed read leaves both shared
counters untouched while the worker logs the error and continues with the
rest of its schedule, and a successful read adds exactly 1 to the
operation counter and the attempt's elapsed nanoseconds to the latency
accumulator before continuing. -/
theorem C7_worker_error_policy (pc wid : Nat) (it : IterInput) (rest : List IterInput)
    (cs : Counters) (hc : it.ctxDone = false) (hs : it.stopClosed = false) :
    (∀ e, it.readErr = some e →
      workerBenchmark pc wid (it :: rest) cs =
        ((workerBenchmark pc wid rest cs).1,
         WorkerEvent.read ("item" ++ toString it.itemIndex)
             ("partition" ++ toString (it.itemIndex % pc)) ::
           WorkerEvent.log wid ("item" ++ toString it.itemIndex) e ::
           (workerBenchmark pc wid rest cs).2)) ∧
    (it.readErr = none →
      workerBenchmark pc wid (it :: rest) cs =
        ((workerBenchmark pc wid rest
            { totalOps := cs.totalOps + 1,
              totalLatency := cs.totalLatency + it.latencyNs }).1,
         WorkerEvent.read ("item" ++ toString it.itemIndex)
             ("partition" ++ toString (it.itemIndex % pc)) ::
           (workerBenchmark pc wid rest
            { totalOps := cs.totalOps + 1,
              totalLatency := cs.totalLatency + it.latencyNs }).2)) := by
  constructor
  · intro e hre
    simp [workerBenchmark, hc, hs, hre]
  · intro hre
    simp [workerBenchmark, hc, hs, hre]

/-- Witness for C7: one failed and one successful concrete iteration. -/
theorem C7_worker_error_policy_witness :
    workerBenchmark 10 0
        [{ ctxDone := false, stopClosed := false, itemIndex := 3,
           readErr := some (GoError.errorf "boom"), latencyNs := 9 }] ⟨0, 0⟩ =
      (⟨0, 0⟩, [WorkerEvent.read "item3" "partition3",
                WorkerEvent.log 0 "item3" (GoError.errorf "boom")]) ∧
    workerBenchmark 10 0
        [{ ctxDone := false, stopClosed := false, itemIndex := 3,
           readErr := none, latencyNs := 9 }] ⟨0, 0⟩ =
      (⟨1, 9⟩, [WorkerEvent.read "item3" "partition3"]) := by
  constructor
  · exact (C7_worker_error_policy 10 0
      { ctxDone := false, stopClosed := false, itemIndex := 3,
        readErr := some (GoError.errorf "boom"), latencyNs := 9 } [] ⟨0, 0⟩ rfl rfl).1
      (GoError.errorf "boom") rfl
  · exact (C7_worker_error_policy 10 0
      { ctxDone := false, stopClosed := false, itemIndex := 3,
        readErr := none, latencyNs := 9 } [] ⟨0, 0⟩ rfl rfl).2 rfl

/-- C9: a worker polls both cancellation signals at the top of each
iteration, before starting new work: if either signal (each alone
suffices) has fired at the iteration boundary, the worker returns at once,
issuing no further read and leaving the counters untouched; in general its
whole behavior equals its behavior on the maximal uncancelled prefix of
its schedule; and the harness computes its results from the counters of
the workers' completed runs only. -/
theorem C9_cooperative_cancellation (pc wid : Nat) :
    (∀ (it : IterInput) (rest : List IterInput) (cs : Counters),
        it.ctxDone = true ∨ it.stopClosed = true →
        workerBenchmark pc wid (it :: rest) cs = (cs, [])) ∧
    (∀ (sched : List IterInput) (cs : Counters),
        workerBenchmark pc wid sched cs =
          workerBenchmark pc wid (sched.takeWhile fun i => !(i.ctxDone || i.stopClosed)) cs) ∧
    (∀ (schedules : List (List IterInput)) (ns : Int),
        executeBenchmark pc schedules ns =
          aggregateBenchmark
            ((schedules.enum.map fun p => (workerBenchmark pc p.1 p.2 ⟨0, 0⟩).1.totalOps).sum)
            ((schedules.enum.map fun p => (workerBenchmark pc p.1 p.2 ⟨0, 0⟩).1.totalLatency).sum)
            ns) := by
  refine ⟨?_, ?_, ?_⟩
  · intro it rest cs hsig
    have hflag : (it.ctxDone || it.stopClosed) = true := by
      rcases hsig with h | h <;> simp [h]
    simp [workerBenchmark, hflag]
  · intro sched cs
    simpa using workerBenchmark_cancel_prefix pc wid sched cs
  · intro schedules ns
    simp [executeBenchmark, List.map_map, Function.comp_def]

/-- Witness for C9: a worker whose first iteration sees the deadline
signal returns immediately with no event and untouched counters. -/
theorem C9_cooperative_cancellation_witness :
    workerBenchmark 10 0
        [{ ctxDone := true, stopClosed := false, itemIndex := 1,
           readErr := none, latencyNs := 2 }] ⟨0, 0⟩ = (⟨0, 0⟩, []) :=
  (C9_cooperative_cancellation 10 0).1
    { ctxDone := true, stopClosed := false, itemIndex := 1,
      readErr := none, latencyNs := 2 } [] ⟨0, 0⟩ (Or.inl rfl)

/-- Helper: a `CosmosClient` whose pointer is nil performs no foreign call
under any sequence of lifecycle events, and its pointer stays nil. -/
theorem runClientEvents_closed (evs : List LifecycleEvent) :
    ∀ c : CosmosClient, c.client = none →
      (runClientEvents evs c).2 = [] ∧ (runClientEvents evs c).1.client = none := by
  induction evs with
  | nil => intro c h; exact ⟨rfl, h⟩
  | cons e rest ih =>
    intro c h
    cases e
    · have hstep : CosmosClient.Close c = ({ c with finalizerSet := false }, []) := by
        simp [CosmosClient.Close, CosmosClient.finalize, h]
      have hr := ih { c with finalizerSet := false } (by simpa using h)
      simp [runClientEvents, hstep, hr.1, hr.2]
    · by_cases hf : c.finalizerSet
      · have hstep : CosmosClient.runFinalizer c = ({ c with finalizerSet := false }, []) := by
          simp [CosmosClient.runFinalizer, CosmosClient.finalize, h, hf]
        have hr := ih { c with finalizerSet := false } (by simpa using h)
        simp [runClientEvents, hstep, hr.1, hr.2]
      · have hstep : CosmosClient.runFinalizer c = (c, []) := by
          simp [CosmosClient.runFinalizer, hf]
        have hr := ih c h
        simp [runClientEvents, hstep, hr.1, hr.2]

/-- Helper: any sequence of explicit closes and garbage-collection passes
invokes the foreign client destructor at most once. -/
theorem runClientEvents_free_le_one (evs : List LifecycleEvent) :
    ∀ c : CosmosClient, clientFreeCount (runClientEvents evs c).2 ≤ 1 := by
  induction evs with
  | nil => intro c; simp [runClientEvents, clientFreeCount]
  | cons e rest ih =>
    intro c
    rcases hc : c.client with _ | hptr
    · have hr := runClientEvents_closed (e :: rest) c hc
      simp [clientFreeCount, hr.1]
    · cases e
      · have hstep : CosmosClient.Close c =
            ({ c with client := none, finalizerSet := false },
             [ForeignCall.cosmos_client_free hptr]) := by
          simp [CosmosClient.Close, CosmosClient.finalize, hc]
        have hrest := runClientEvents_closed rest
          { c with client := none, finalizerSet := false } (by simp)
        simp [runClientEvents, hstep, clientFreeCount, hrest.1]
      · by_cases hf : c.finalizerSet
        · have hstep : CosmosClient.runFinalizer c =
              ({ c with client := none, finalizerSet := false },
               [ForeignCall.cosmos_client_free hptr]) := by
            simp [CosmosClient.runFinalizer, CosmosClient.finalize, hc, hf]
          have hrest := runClientEvents_closed rest
            { c with client := none, finalizerSet := false } (by simp)
          simp [runClientEvents, hstep, clientFreeCount, hrest.1]
        · have hstep : CosmosClient.runFinalizer c = (c, []) := by
            simp [CosmosClient.runFinalizer, hf]
          have hr := ih c
          simpa [runClientEvents, hstep, clientFreeCount] using hr

/-- Helper: the state `Close` reaches is a fixed point of `Close`, with no
further foreign call. -/
theorem close_client_again (c : CosmosClient) :
    CosmosClient.Close (CosmosClient.Close c).1 = ((CosmosClient.Close c).1, []) := by
  rcases c with ⟨cl, fs⟩
  rcases cl with _ | hptr <;> simp [CosmosClient.Close, CosmosClient.finalize]

/-- Helper: one unfolding step of the event runner at an explicit close. -/
theorem runClientEvents_close_cons (rest : List LifecycleEvent) (c : CosmosClient) :
    runClientEvents (LifecycleEvent.close :: rest) c =
      ((runClientEvents rest (CosmosClient.Close c).1).1,
       (CosmosClient.Close c).2 ++ (runClientEvents rest (CosmosClient.Close c).1).2) := rfl

/-- Helper: closing `n + 1` times has exactly the effect of closing once. -/
theorem runClientEvents_replicate_close (n : Nat) :
    ∀ c : CosmosClient,
      runClientEvents (List.replicate (n + 1) LifecycleEvent.close) c =
        CosmosClient.Close c := by
  induction n with
  | zero =>
    intro c
    rw [List.replicate_succ, List.replicate_zero, runClientEvents_close_cons]
    simp [runClientEvents]
  | succ n ih =>
    intro c
    rw [List.replicate_succ, runClientEvents_close_cons, ih (CosmosClient.Close c).1,
      close_client_again c]
    simp

/-- Helper: the runtime finalizer, run after an explicit `Close`, performs
no foreign call and leaves the state unchanged. -/
theorem runFinalizer_after_close_client (c : CosmosClient) :
    CosmosClient.runFinalizer (CosmosClient.Close c).1 = ((CosmosClient.Close c).1, []) := by
  rcases c with ⟨cl, fs⟩
  rcases cl with _ | hptr <;>
    simp [CosmosClient.Close, CosmosClient.finalize, CosmosClient.runFinalizer]

/-- Helper: a `DatabaseClient` whose pointer is nil performs no foreign call
under any sequence of lifecycle events, and its pointer stays nil. -/
theorem runDatabaseEvents_closed (evs : List LifecycleEvent) :
    ∀ c : DatabaseClient, c.database = none →
      (runDatabaseEvents evs c).2 = [] ∧ (runDatabaseEvents evs c).1.database = none := by
  induction evs with
  | nil => intro c h; exact ⟨rfl, h⟩
  | cons e rest ih =>
    intro c h
    cases e
    · have hstep : DatabaseClient.Close c = ({ c with finalizerSet := false }, []) := by
        simp [DatabaseClient.Close, DatabaseClient.finalize, h]
      have hr := ih { c with finalizerSet := false } (by simpa using h)
      simp [runDatabaseEvents, hstep, hr.1, hr.2]
    · by_cases hf : c.finalizerSet
      · have hstep : DatabaseClient.runFinalizer c = ({ c with finalizerSet := false }, []) := by
          simp [DatabaseClient.runFinalizer, DatabaseClient.finalize, h, hf]
        have hr := ih { c with finalizerSet := false } (by simpa using h)
        simp [runDatabaseEvents, hstep, hr.1, hr.2]
      · have hstep : DatabaseClient.runFinalizer c = (c, []) := by
          simp [DatabaseClient.runFinalizer, hf]
        have hr := ih c h
        simp [runDatabaseEvents, hstep, hr.1, hr.2]

/-- Helper: any sequence of explicit closes and garbage-collection passes
invokes the foreign database destructor at most once. -/
theorem runDatabaseEvents_free_le_one (evs : List LifecycleEvent) :
    ∀ c : DatabaseClient, databaseFreeCount (runDatabaseEvents evs c).2 ≤ 1 := by
  induction evs with
  | nil => intro c; simp [runDatabaseEvents, databaseFreeCount]
  | cons e rest ih =>
    intro c
    rcases hc : c.database with _ | hptr
    · have hr := runDatabaseEvents_closed (e :: rest) c hc
      simp [databaseFreeCount, hr.1]
    · cases e
      · have hstep : DatabaseClient.Close c =
            ({ c with database := none, finalizerSet := false },
             [ForeignCall.cosmos_database_free hptr]) := by
          simp [DatabaseClient.Close, DatabaseClient.finalize, hc]
        have hrest := runDatabaseEvents_closed rest
          { c with database := none, finalizerSet := false } (by simp)
        simp [runDatabaseEvents, hstep, databaseFreeCount, hrest.1]
      · by_cases hf : c.finalizerSet
        · have hstep : DatabaseClient.runFinalizer c =
              ({ c with database := none, finalizerSet := false },
               [ForeignCall.cosmos_database_free hptr]) := by
            simp [DatabaseClient.runFinalizer, DatabaseClient.finalize, hc, hf]
          have hrest := runDatabaseEvents_closed rest
            { c with database := none, finalizerSet := false } (by simp)
          simp [runDatabaseEvents, hstep, databaseFreeCount, hrest.1]
        · have hstep : DatabaseClient.runFinalizer c = (c, []) := by
            simp [DatabaseClient.runFinalizer, hf]
          have hr := ih c
          simpa [runDatabaseEvents, hstep, databaseFreeCount] using hr

/-- Helper: the state `Close` reaches is a fixed point of `Close`, with no
further foreign call. -/
theorem close_database_again (c : DatabaseClient) :
    DatabaseClient.Close (DatabaseClient.Close c).1 = ((DatabaseClient.Close c).1, []) := by
  rcases c with ⟨cl, fs⟩
  rcases cl with _ | hptr <;> simp [DatabaseClient.Close, DatabaseClient.finalize]

/-- Helper: one unfolding step of the event runner at an explicit close. -/
theorem runDatabaseEvents_close_cons (rest : List LifecycleEvent) (c : DatabaseClient) :
    runDatabaseEvents (LifecycleEvent.close :: rest) c =
      ((runDatabaseEvents rest (DatabaseClient.Close c).1).1,
       (DatabaseClient.Close c).2 ++ (runDatabaseEvents rest (DatabaseClient.Close c).1).2) := rfl

/-- Helper: closing `n + 1` times has exactly the effect of closing once. -/
theorem runDatabaseEvents_replicate_close (n : Nat) :
    ∀ c : DatabaseClient,
      runDatabaseEvents (List.replicate (n + 1) LifecycleEvent.close) c =
        DatabaseClient.Close c := by
  induction n with
  | zero =>
    intro c
    rw [List.replicate_succ, List.replicate_zero, runDatabaseEvents_close_cons]
    simp [runDatabaseEvents]
  | succ n ih =>
    intro c
    rw [List.replicate_succ, runDatabaseEvents_close_cons, ih (DatabaseClient.Close c).1,
      close_database_again c]
    simp

/-- Helper: the runtime finalizer, run after an explicit `Close`, performs
no foreign call and leaves the state unchanged. -/
theorem runFinalizer_after_close_database (c : DatabaseClient) :
    DatabaseClient.runFinalizer (DatabaseClient.Close c).1 = ((DatabaseClient.Close c).1, []) := by
  rcases c with ⟨cl, fs⟩
  rcases cl with _ | hptr <;>
    simp [DatabaseClient.Close, DatabaseClient.finalize, DatabaseClient.runFinalizer]

/-- Helper: a `ContainerClient` whose pointer is nil performs no foreign call
under any sequence of lifecycle events, and its pointer stays nil. -/
theorem runContainerEvents_closed (evs : List LifecycleEvent) :
    ∀ c : ContainerClient, c.container = none →
      (runContainerEvents evs c).2 = [] ∧ (runContainerEvents evs c).1.container = none := by
  induction evs with
  | nil => intro c h; exact ⟨rfl, h⟩
  | cons e rest ih =>
    intro c h
    cases e
    · have hstep : ContainerClient.Close c = ({ c with finalizerSet := false }, []) := by
        simp [ContainerClient.Close, ContainerClient.finalize, h]
      have hr := ih { c with finalizerSet := false } (by simpa using h)
      simp [runContainerEvents, hstep, hr.1, hr.2]
    · by_cases hf : c.finalizerSet
      · have hstep : ContainerClient.runFinalizer c = ({ c with finalizerSet := false }, []) := by
          simp [ContainerClient.runFinalizer, ContainerClient.finalize, h, hf]
        have hr := ih { c with finalizerSet := false } (by simpa using h)
        simp [runContainerEvents, hstep, hr.1, hr.2]
      · have hstep : ContainerClient.runFinalizer c = (c, []) := by
          simp [ContainerClient.runFinalizer, hf]
        have hr := ih c h
        simp [runContainerEvents, hstep, hr.1, hr.2]

/-- Helper: any sequence of explicit closes and garbage-collection passes
invokes the foreign container destructor at most once. -/
theorem runContainerEvents_free_le_one (evs : List LifecycleEvent) :
    ∀ c : ContainerClient, containerFreeCount (runContainerEvents evs c).2 ≤ 1 := by
  induction evs with
  | nil => intro c; simp [runContainerEvents, containerFreeCount]
  | cons e rest ih =>
    intro c
    rcases hc : c.container with _ | hptr
    · have hr := runContainerEvents_closed (e :: rest) c hc
      simp [containerFreeCount, hr.1]
    · cases e
      · have hstep : ContainerClient.Close c =
            ({ c with container := none, finalizerSet := false },
             [ForeignCall.cosmos_container_free hptr]) := by
          simp [ContainerClient.Close, ContainerClient.finalize, hc]
        have hrest := runContainerEvents_closed rest
          { c with container := none, finalizerSet := false } (by simp)
        simp [runContainerEvents, hstep, containerFreeCount, hrest.1]
      · by_cases hf : c.finalizerSet
        · have hstep : ContainerClient.runFinalizer c =
              ({ c with container := none, finalizerSet := false },
               [ForeignCall.cosmos_container_free hptr]) := by
            simp [ContainerClient.runFinalizer, ContainerClient.finalize, hc, hf]
          have hrest := runContainerEvents_closed rest
            { c with container := none, finalizerSet := false } (by simp)
          simp [runContainerEvents, hstep, containerFreeCount, hrest.1]
        · have hstep : ContainerClient.runFinalizer c = (c, []) := by
            simp [ContainerClient.runFinalizer, hf]
          have hr := ih c
          simpa [runContainerEvents, hstep, containerFreeCount] using hr

/-- Helper: the state `Close` reaches is a fixed point of `Close`, with no
further foreign call. -/
theorem close_container_again (c : ContainerClient) :
    ContainerClient.Close (ContainerClient.Close c).1 = ((ContainerClient.Close c).1, []) := by
  rcases c with ⟨cl, fs⟩
  rcases cl with _ | hptr <;> simp [ContainerClient.Close, ContainerClient.finalize]

/-- Helper: one unfolding step of the event runner at an explicit close. -/
theorem runContainerEvents_close_cons (rest : List LifecycleEvent) (c : ContainerClient) :
    runContainerEvents (LifecycleEvent.close :: rest) c =
      ((runContainerEvents rest (ContainerClient.Close c).1).1,
       (ContainerClient.Close c).2 ++ (runContainerEvents rest (ContainerClient.Close c).1).2) := rfl

/-- Helper: closing `n + 1` times has exactly the effect of closing once. -/
theorem runContainerEvents_replicate_close (n : Nat) :
    ∀ c : ContainerClient,
      runContainerEvents (List.replicate (n + 1) LifecycleEvent.close) c =
        ContainerClient.Close c := by
  induction n with
  | zero =>
    intro c
    rw [List.replicate_succ, List.replicate_zero, runContainerEvents_close_cons]
    simp [runContainerEvents]
  | succ n ih =>
    intro c
    rw [List.replicate_succ, runContainerEvents_close_cons, ih (ContainerClient.Close c).1,
      close_container_again c]
    simp

/-- Helper: the runtime finalizer, run after an explicit `Close`, performs
no foreign call and leaves the state unchanged. -/
theorem runFinalizer_after_close_container (c : ContainerClient) :
    ContainerClient.runFinalizer (ContainerClient.Close c).1 = ((ContainerClient.Close c).1, []) := by
  rcases c with ⟨cl, fs⟩
  rcases cl with _ | hptr <;>
    simp [ContainerClient.Close, ContainerClient.finalize, ContainerClient.runFinalizer]

/-- C1: for each of the three handle wrappers (`CosmosClient`,
`DatabaseClient`, `ContainerClient`), closing any number of times has the
effect of closing once (same final state and same foreign-call trace), any
sequence of explicit `Close` calls and garbage-collection finalizations
invokes the matching foreign destructor at most once, and a finalization
after `Close` performs no foreign call. -/
theorem C1_idempotent_close :
    (∀ (c : CosmosClient) (n : Nat),
        runClientEvents (List.replicate (n + 1) LifecycleEvent.close) c =
          CosmosClient.Close c) ∧
    (∀ (evs : List LifecycleEvent) (c : CosmosClient),
        clientFreeCount (runClientEvents evs c).2 ≤ 1) ∧
    (∀ c : CosmosClient,
        CosmosClient.runFinalizer (CosmosClient.Close c).1 =
          ((CosmosClient.Close c).1, [])) ∧
    (∀ (d : DatabaseClient) (n : Nat),
        runDatabaseEvents (List.replicate (n + 1) LifecycleEvent.close) d =
          DatabaseClient.Close d) ∧
    (∀ (evs : List LifecycleEvent) (d : DatabaseClient),
        databaseFreeCount (runDatabaseEvents evs d).2 ≤ 1) ∧
    (∀ d : DatabaseClient,
        DatabaseClient.runFinalizer (DatabaseClient.Close d).1 =
          ((DatabaseClient.Close d).1, [])) ∧
    (∀ (k : ContainerClient) (n : Nat),
        runContainerEvents (List.replicate (n + 1) LifecycleEvent.close) k =
          ContainerClient.Close k) ∧
    (∀ (evs : List LifecycleEvent) (k : ContainerClient),
        containerFreeCount (runContainerEvents evs k).2 ≤ 1) ∧
    (∀ k : ContainerClient,
        ContainerClient.runFinalizer (ContainerClient.Close k).1 =
          ((ContainerClient.Close k).1, [])) :=
  ⟨fun c n => runClientEvents_replicate_close n c,
   fun evs c => runClientEvents_free_le_one evs c,
   runFinalizer_after_close_client,
   fun d n => runDatabaseEvents_replicate_close n d,
   fun evs d => runDatabaseEvents_free_le_one evs d,
   runFinalizer_after_close_database,
   fun k n => runContainerEvents_replicate_close n k,
   fun evs k => runContainerEvents_free_le_one evs k,
   runFinalizer_after_close_container⟩

/-- C8: every foreign call taking text input (create client, open
database, open container, read item) allocates one foreign-owned copy per
input string and releases each copy exactly once on every exit path: for
any behavior of the native test double, the alloc and free event lists of
the trace are exactly the input copies (frees in deferred LIFO order).
For foreign-produced output text, a successful read releases the JSON
buffer exactly once via `cosmos_string_free`, the dedicated release-string
entry point, while the generic `C.free` releases in the trace are exactly
those of the two input copies. -/
theorem C8_marshaling_balance (env : ForeignEnv) (hcl hdb hct : Nat) (b : Bool)
    (endpoint key dbID contID itemID pk : String) :
    cstrAllocs (NewCosmosClientWithKey env endpoint key).2 =
      [(CStrRole.endpoint, endpoint), (CStrRole.key, key)] ∧
    cstrFrees (NewCosmosClientWithKey env endpoint key).2 =
      [(CStrRole.key, key), (CStrRole.endpoint, endpoint)] ∧
    cstrAllocs (CosmosClient.DatabaseClient env
        { client := some hcl, finalizerSet := b } dbID).2 =
      [(CStrRole.databaseID, dbID)] ∧
    cstrFrees (CosmosClient.DatabaseClient env
        { client := some hcl, finalizerSet := b } dbID).2 =
      [(CStrRole.databaseID, dbID)] ∧
    cstrAllocs (DatabaseClient.ContainerClient env
        { database := some hdb, finalizerSet := b } contID).2 =
      [(CStrRole.containerID, contID)] ∧
    cstrFrees (DatabaseClient.ContainerClient env
        { database := some hdb, finalizerSet := b } contID).2 =
      [(CStrRole.containerID, contID)] ∧
    cstrAllocs (ContainerClient.ReadItem env
        { container := some hct, finalizerSet := b } itemID pk).2 =
      [(CStrRole.itemID, itemID), (CStrRole.partitionKey, pk)] ∧
    cstrFrees (ContainerClient.ReadItem env
        { container := some hct, finalizerSet := b } itemID pk).2 =
      [(CStrRole.partitionKey, pk), (CStrRole.itemID, itemID)] ∧
    (∀ json cerr,
      env.containerReadItem hct pk itemID = (COSMOS_ERROR_CODE_SUCCESS, some json, cerr) →
      (ContainerClient.ReadItem env
          { container := some hct, finalizerSet := b } itemID pk).2.count
        (ForeignCall.cosmos_string_free json) = 1) := by
  rcases h1 : env.clientCreateWithKey endpoint key with ⟨code1, cl1, cerr1⟩
  rcases h2 : env.clientDatabaseClient hcl dbID with ⟨code2, db2, cerr2⟩
  rcases h3 : env.databaseContainerClient hdb contID with ⟨code3, ct3, cerr3⟩
  rcases h4 : env.containerReadItem hct pk itemID with ⟨code4, json4, cerr4⟩
  refine ⟨?_, ?_, ?_, ?_, ?_, ?_, ?_, ?_, ?_⟩
  · simp only [NewCosmosClientWithKey, h1]
    split_ifs <;> simp [cstrAllocs]
  · simp only [NewCosmosClientWithKey, h1]
    split_ifs <;> simp [cstrFrees]
  · simp only [CosmosClient.DatabaseClient, h2]
    split_ifs <;> simp [cstrAllocs]
  · simp only [CosmosClient.DatabaseClient, h2]
    split_ifs <;> simp [cstrFrees]
  · simp only [DatabaseClient.ContainerClient, h3]
    split_ifs <;> simp [cstrAllocs]
  · simp only [DatabaseClient.ContainerClient, h3]
    split_ifs <;> simp [cstrFrees]
  · simp only [ContainerClient.ReadItem, h4]
    cases json4 <;> split_ifs <;> simp [cstrAllocs]
  · simp only [ContainerClient.ReadItem, h4]
    cases json4 <;> split_ifs <;> simp [cstrFrees]
  · intro json cerr hjson
    simp only [Prod.mk.injEq] at hjson
    obtain ⟨hc4, hj4, hcerr4⟩ := hjson
    subst hc4; subst hj4
    simp [ContainerClient.ReadItem, h4, COSMOS_ERROR_CODE_SUCCESS, List.count_cons]

/-- Witness for C8: against the well-behaved test double, the read's trace
releases the JSON buffer exactly once via the release-string entry point. -/
theorem C8_marshaling_balance_witness :
    (ContainerClient.ReadItem okEnv { container := some 3, finalizerSet := true }
        "item0" "partition0").2.count (ForeignCall.cosmos_string_free "{}") = 1 :=
  (C8_marshaling_balance okEnv 1 2 3 true "e" "k" "db" "cont" "item0"
      "partition0").2.2.2.2.2.2.2.2 "{}" ⟨0, none⟩ rfl
